import Mathlib

set_option maxRecDepth 8000

/-!
Shallow embedding of the bonding-curve pallet
(`src/pallets/template/src/lib.rs`) of the `substrate-bancor-demo`
repository, and verification of the specification's claims about it.

The pallet stores four `u128` counters (`BaseSupplyOfToken`,
`BaseBalanceOfVSToken`, `RealSupplyOfToken`, `RealBalanceOfVSToken`) and a
per-account map `TokenSheet`, and exposes three dispatchables
(`base_init`, `vstoken_buy_token`, `token_buy_vstoken`).  Arithmetic is
`u128` saturating arithmetic plus the `I64F64` fixed-point type
(signed 128-bit, 64 fractional bits) of the `fixed-point` crate.

Machine integers are embedded as `Nat` (for `u128`, with explicit
clamping at `2^128 - 1` in the saturating operations) and as `Int` for the
`I64F64` bit representation (value = bits / 2^64, bits clamped to the
signed 128-bit range).  Fallible steps (storage `unwrap`, `from_num`
overflow, division by zero, `from_fixed` of a negative value) are modelled
with `Option`, and a dispatchable call yields an `Outcome`: a new state
plus emitted events, or an abort.
-/

/-- Largest `u128` value. -/
def U128MAX : Nat := 2 ^ 128 - 1

/-- Scale factor of the `I64F64` fixed-point representation. -/
def SCALE : Nat := 2 ^ 64

/-- Largest signed 128-bit value (the `I64F64` bit range). -/
def I128MAX : Int := 2 ^ 127 - 1

/-- Smallest signed 128-bit value. -/
def I128MIN : Int := -(2 ^ 127)

/-- Embedding of `u128::saturating_add`. -/
def satAddU (a b : Nat) : Nat := min (a + b) U128MAX

/-- Embedding of `u128::saturating_sub` (truncated subtraction, clamps at zero --
exactly `Nat` subtraction). -/
def satSubU (a b : Nat) : Nat := a - b

/-- Embedding of `u128::saturating_mul`. -/
def satMulU (a b : Nat) : Nat := min (a * b) U128MAX

/-- Clamp an integer into the signed 128-bit range, as the fixed-point
saturating operations do on overflow. -/
def clampI128 (x : Int) : Int := max I128MIN (min x I128MAX)

/-- Embedding of `I64F64::saturating_add` on bit representations. -/
def fSatAdd (a b : Int) : Int := clampI128 (a + b)

/-- Embedding of `I64F64::saturating_sub` on bit representations. -/
def fSatSub (a b : Int) : Int := clampI128 (a - b)

/-- Embedding of `I64F64::saturating_mul` on bit representations: the wide product is
shifted right by 64 bits (an arithmetic shift, i.e. floor division). -/
def fSatMul (a b : Int) : Int := clampI128 (Int.fdiv (a * b) (2 ^ 64))

/-- Embedding of `I64F64::saturating_div` on bit representations for a nonzero divisor:
the widened dividend is divided with Rust integer division (truncation
toward zero).  Division by zero panics and is handled at each call site. -/
def fSatDiv (a b : Int) : Int := clampI128 (Int.tdiv (a * 2 ^ 64) b)

/-- Embedding of `I64F64::from_num` on a `u128`: panics (`none`) when the value does not
fit in the 63 available integer bits. -/
def fromNum (n : Nat) : Option Int :=
  if n < 2 ^ 63 then some ((n : Int) * 2 ^ 64) else none

/-- Bit representation of `I64F64::from_num(1)`. -/
def one64 : Int := 2 ^ 64

/-- Modelled from the spec: the square-root step (`transcendental::sqrt`
of the `fixed-point` crate, library code outside this repository, which the
source calls and unwraps).  Following the spec's algorithm ("growth =
sqrt(1 + ratio) - 1", computed "with enough precision" at the fixed-point
scale), it is the square root computed exactly at the 64-fractional-bit
precision and truncated: on bits `a >= 0` the result bits are
`Nat.sqrt (a * 2^64)`.  A negative operand fails (`none`). -/
def sqrtF (a : Int) : Option Int :=
  if a < 0 then none else some (Int.ofNat (Nat.sqrt (a.toNat * 2 ^ 64)))

/-- Embedding of `u128::from_fixed`: discards the 64 fractional bits (floor); a negative
value does not fit in `u128` and panics (`none`). -/
def fromFixedU128 (a : Int) : Option Nat :=
  if a < 0 then none else some (a.toNat / 2 ^ 64)

/-- Account identifiers (`T::AccountId`), opaque to the pallet. -/
abbrev AccountId := Nat

/-- The pallet's storage: the four `u128` counters and the
`TokenSheet` storage map (`OptionQuery`: an absent key reads as `none`). -/
structure PalletState where
  baseSupplyOfToken : Option Nat
  baseBalanceOfVSToken : Option Nat
  realSupplyOfToken : Option Nat
  realBalanceOfVSToken : Option Nat
  tokenSheet : AccountId → Option Nat

/-- The storage as deployed, before any call: every item unset. -/
def initialState : PalletState :=
  { baseSupplyOfToken := none
    baseBalanceOfVSToken := none
    realSupplyOfToken := none
    realBalanceOfVSToken := none
    tokenSheet := fun _ => none }

/-- The pallet's events (the `Something`-related demo event is omitted;
no claim mentions it). -/
inductive PEvent where
  | bancorInit (baseSupply baseBalance : Nat) (who : AccountId)
  | vsTokenToToken (vstokenIn minted : Nat) (who : AccountId)
  | tokenToVsToken (tokenIn returned : Nat) (who : AccountId)
deriving DecidableEq

/-- The error taxonomy named by the spec.  The source's own `Error<T>` enum
declares only the template's `NoneValue` and `StorageOverflow` and never
returns either; no dispatchable of the source ever returns a named
error. -/
inductive SpecError where
  | curveNotInitialized
  | insufficientTokenBalance
  | arithmeticOverflow
deriving DecidableEq

/-- Result of one dispatchable call: success with the new storage state and
the emitted events, a returned dispatch error, or an abort (panic) from an
`unwrap` / overflow / division by zero, which leaves storage unchanged. -/
inductive Outcome where
  | ok (s : PalletState) (events : List PEvent)
  | err (e : SpecError)
  | panicked

/-- Dispatchable `base_init(origin, base_balance)`: if `BaseSupplyOfToken` is unset,
write `base_supply = base_balance.saturating_mul(2)`, `base_balance`, and
zero the two real counters, emitting `BancorInit`; otherwise do nothing.
Always returns `Ok`. -/
def base_init (s : PalletState) (who : AccountId) (base_balance : Nat) :
    Outcome :=
  match s.baseSupplyOfToken with
  | none =>
    let base_supply := satMulU base_balance 2
    Outcome.ok
      { s with
        baseSupplyOfToken := some base_supply
        baseBalanceOfVSToken := some base_balance
        realSupplyOfToken := some 0
        realBalanceOfVSToken := some 0 }
      [PEvent.bancorInit base_supply base_balance who]
  | some _ => Outcome.ok s []

/-- Dispatchable `vstoken_buy_token(origin, vstoken)` (the spec's `buy`): unwraps the
four counters (panicking when unset), converts the virtual supply, virtual
balance and deposit to `I64F64` (panicking on overflow), computes
`token = (sqrt(1 + vstoken/virtual_balance) - 1) * virtual_supply`
truncated to `u128`, then overwrites the caller's `TokenSheet` entry with
`token` and adds `token` / `vstoken` to the real supply / real balance
(saturating). -/
def vstoken_buy_token (s : PalletState) (who : AccountId) (vstoken : Nat) :
    Outcome :=
  match s.baseSupplyOfToken, s.baseBalanceOfVSToken,
        s.realSupplyOfToken, s.realBalanceOfVSToken with
  | some base_supply, some base_balance, some real_supply, some real_balance =>
    let saved_vstoken := vstoken
    let virtual_supply := satAddU base_supply real_supply
    let virtual_balance := satAddU base_balance real_balance
    match fromNum virtual_supply, fromNum virtual_balance, fromNum vstoken with
    | some vs, some vb, some vst =>
      if vb = 0 then Outcome.panicked
      else
        let m1 := fSatDiv vst vb
        let m2 := fSatAdd one64 m1
        match sqrtF m2 with
        | none => Outcome.panicked
        | some m3 =>
          let m4 := fSatSub m3 one64
          let token := fSatMul m4 vs
          match fromFixedU128 token with
          | none => Outcome.panicked
          | some token =>
            let real_supply2 := satAddU real_supply token
            let real_balance2 := satAddU real_balance saved_vstoken
            Outcome.ok
              { s with
                tokenSheet := fun a =>
                  if a = who then some token else s.tokenSheet a
                realBalanceOfVSToken := some real_balance2
                realSupplyOfToken := some real_supply2 }
              [PEvent.vsTokenToToken saved_vstoken token who]
    | _, _, _ => Outcome.panicked
  | _, _, _, _ => Outcome.panicked

/-- Dispatchable `token_buy_vstoken(origin, token)` (the spec's `sell`): unwraps the
four counters (panicking when unset), computes
`vstoken = (1 - (1 - token/virtual_supply)^2) * virtual_balance` truncated
to `u128` (panicking when negative), then unwraps the caller's
`TokenSheet` entry (panicking when absent) and writes the saturating
differences back. -/
def token_buy_vstoken (s : PalletState) (who : AccountId) (token : Nat) :
    Outcome :=
  match s.baseSupplyOfToken, s.baseBalanceOfVSToken,
        s.realSupplyOfToken, s.realBalanceOfVSToken with
  | some base_supply, some base_balance, some real_supply, some real_balance =>
    let saved_token := token
    let virtual_supply := satAddU base_supply real_supply
    let virtual_balance := satAddU base_balance real_balance
    match fromNum virtual_supply, fromNum virtual_balance, fromNum token with
    | some vs, some vb, some tok =>
      if vs = 0 then Outcome.panicked
      else
        let n1 := fSatDiv tok vs
        let n2 := fSatSub one64 n1
        let n3 := fSatMul n2 n2
        let n4 := fSatSub one64 n3
        let vstoken := fSatMul n4 vb
        match fromFixedU128 vstoken with
        | none => Outcome.panicked
        | some vstoken =>
          let real_supply2 := satSubU real_supply saved_token
          let real_balance2 := satSubU real_balance vstoken
          match s.tokenSheet who with
          | none => Outcome.panicked
          | some entry =>
            Outcome.ok
              { s with
                tokenSheet := fun a =>
                  if a = who then some (satSubU entry saved_token)
                  else s.tokenSheet a
                realBalanceOfVSToken := some real_balance2
                realSupplyOfToken := some real_supply2 }
              [PEvent.tokenToVsToken saved_token vstoken who]
    | _, _, _ => Outcome.panicked
  | _, _, _, _ => Outcome.panicked

/-- Sequencing of calls: feed the state of a successful call into the next
one; a failed call aborts the sequence. -/
def andThen (o : Outcome) (f : PalletState → Outcome) : Outcome :=
  match o with
  | Outcome.ok s _ => f s
  | x => x

/-- Observation: the state of a successful outcome. -/
def stateOf (o : Outcome) : Option PalletState :=
  match o with
  | Outcome.ok s _ => some s
  | _ => none

/-- Observation: the `RealSupplyOfToken` counter of a successful outcome. -/
def realSupplyOf (o : Outcome) : Option Nat :=
  match o with
  | Outcome.ok s _ => s.realSupplyOfToken
  | _ => none

/-- Observation: the `RealBalanceOfVSToken` counter of a successful
outcome. -/
def realBalanceOf (o : Outcome) : Option Nat :=
  match o with
  | Outcome.ok s _ => s.realBalanceOfVSToken
  | _ => none

/-- Observation: the `BaseSupplyOfToken` counter of a successful outcome. -/
def baseSupplyOf (o : Outcome) : Option Nat :=
  match o with
  | Outcome.ok s _ => s.baseSupplyOfToken
  | _ => none

/-- Observation: the `BaseBalanceOfVSToken` counter of a successful
outcome. -/
def baseBalanceOf (o : Outcome) : Option Nat :=
  match o with
  | Outcome.ok s _ => s.baseBalanceOfVSToken
  | _ => none

/-- Observation: an account's `TokenSheet` entry of a successful outcome. -/
def ledgerOf (o : Outcome) (a : AccountId) : Option Nat :=
  match o with
  | Outcome.ok s _ => s.tokenSheet a
  | _ => none

/-- Observation: the token amount minted by a successful buy, read off the
`VsTokenToToken` event. -/
def mintedOf (o : Outcome) : Option Nat :=
  match o with
  | Outcome.ok _ (PEvent.vsTokenToToken _ t _ :: _) => some t
  | _ => none

/-- Observation: the vstoken amount returned by a successful sell, read off
the `TokenToVsToken` event. -/
def returnedOf (o : Outcome) : Option Nat :=
  match o with
  | Outcome.ok _ (PEvent.tokenToVsToken _ y _ :: _) => some y
  | _ => none

/-- Sequencing a successful call: the next call runs on the new state. -/
theorem andThen_ok (s : PalletState) (ev : List PEvent) (f : PalletState → Outcome) :
    andThen (Outcome.ok s ev) f = f s := rfl

/-! ### Arithmetic helper lemmas -/

theorem satAddU_eq {a b : Nat} (h : a + b ≤ U128MAX) : satAddU a b = a + b :=
  min_eq_left h

theorem satMulU_eq {a b : Nat} (h : a * b ≤ U128MAX) : satMulU a b = a * b :=
  min_eq_left h

theorem clampI128_eq {x : Int} (h1 : I128MIN ≤ x) (h2 : x ≤ I128MAX) :
    clampI128 x = x := by
  unfold clampI128
  rw [min_eq_left h2, max_eq_right h1]

theorem tdiv_coe (m n : Nat) :
    Int.tdiv (m : Int) (n : Int) = ((m / n : Nat) : Int) := rfl

theorem fdiv_coe (m n : Nat) :
    Int.fdiv (m : Int) (n : Int) = ((m / n : Nat) : Int) := by
  rw [Int.fdiv_eq_tdiv (Int.natCast_nonneg m) (Int.natCast_nonneg n)]
  exact tdiv_coe m n

theorem div_le_div_right64 {a b : Nat} (h : a <= b) :
    a / 2 ^ 64 <= b / 2 ^ 64 := Nat.div_le_div_right h

/-! ### Closed-form amounts

`mintedNat` is the token amount minted by a successful `vstoken_buy_token`
on an initialized curve with virtual supply `vsup`, virtual balance `vbal`
and deposit `x`, with the fixed-point saturation points made explicit;
`buyT` is the same amount in the range where no saturation occurs, and
`sellY` the amount returned by a successful `token_buy_vstoken`. -/

def mintedNat (vsup vbal x : Nat) : Nat :=
  (min ((Nat.sqrt ((min (SCALE + x * SCALE / vbal) (2 ^ 127 - 1)) * SCALE)
      - SCALE) * vsup) (2 ^ 127 - 1)) / SCALE

def buyT (vsup vbal x : Nat) : Nat :=
  ((Nat.sqrt ((SCALE + x * SCALE / vbal) * SCALE) - SCALE) * vsup) / SCALE

def sellY (vsup vbal t : Nat) : Nat :=
  ((SCALE - (SCALE - t * SCALE / vsup) ^ 2 / SCALE) * vbal) / SCALE


theorem clampI128_coe (v : Nat) :
    clampI128 ((v : Nat) : Int) = ((min v (2 ^ 127 - 1) : Nat) : Int) := by
  unfold clampI128 I128MAX I128MIN
  have e : ((2:Int) ^ 127 - 1) = (((2 ^ 127 - 1 : Nat) : Nat) : Int) := by push_cast; try ring
  rw [e, ← Nat.cast_min]
  exact max_eq_right (le_trans (by norm_num) (Int.natCast_nonneg _))

theorem fSatDiv_eval (x v : Nat) :
    fSatDiv ((x : Int) * 2 ^ 64) ((v : Int) * 2 ^ 64)
      = ((min (x * 2 ^ 64 / v) (2 ^ 127 - 1) : Nat) : Int) := by
  unfold fSatDiv
  have e1 : ((x : Int) * 2 ^ 64) * 2 ^ 64 = ((x * 2 ^ 64 * 2 ^ 64 : Nat) : Int) := by
    push_cast; try ring
  have e2 : ((v : Int) * 2 ^ 64) = ((v * 2 ^ 64 : Nat) : Int) := by push_cast; try ring
  rw [e1, e2, tdiv_coe, Nat.mul_div_mul_right _ _ (by norm_num : (0:Nat) < 2 ^ 64)]
  exact clampI128_coe _

theorem fSatAdd_eval (m : Nat) :
    fSatAdd one64 ((m : Nat) : Int)
      = ((min (2 ^ 64 + m) (2 ^ 127 - 1) : Nat) : Int) := by
  unfold fSatAdd one64
  have e : (2 ^ 64 + (m : Int)) = ((2 ^ 64 + m : Nat) : Int) := by push_cast; try ring
  rw [e]
  exact clampI128_coe _

theorem sqrtF_eval (m : Nat) :
    sqrtF ((m : Nat) : Int) = some ((Nat.sqrt (m * 2 ^ 64) : Nat) : Int) := by
  unfold sqrtF
  rw [if_neg (by exact not_lt.mpr (Int.natCast_nonneg m)), Int.toNat_natCast]
  rfl

theorem fSatSub_eval (m : Nat) (h : 2 ^ 64 <= m) :
    fSatSub ((m : Nat) : Int) one64
      = ((min (m - 2 ^ 64) (2 ^ 127 - 1) : Nat) : Int) := by
  unfold fSatSub one64
  have e : ((m : Int) - 2 ^ 64) = ((m - 2 ^ 64 : Nat) : Int) := by
    have : ((2:Int) ^ 64) = ((2 ^ 64 : Nat) : Int) := by push_cast; try ring
    rw [this, ← Nat.cast_sub h]
  rw [e]
  exact clampI128_coe _

theorem fSatMul_eval (m v : Nat) :
    fSatMul ((m : Nat) : Int) ((v : Int) * 2 ^ 64)
      = ((min (m * v) (2 ^ 127 - 1) : Nat) : Int) := by
  unfold fSatMul
  have e : ((m : Int) * ((v : Int) * 2 ^ 64)) = ((m * v * 2 ^ 64 : Nat) : Int) := by
    push_cast; try ring
  have e2 : ((2:Int) ^ 64) = (((2 ^ 64 : Nat) : Nat) : Int) := by push_cast; try ring
  rw [e, e2, fdiv_coe, Nat.mul_div_cancel _ (by norm_num : (0:Nat) < 2 ^ 64)]
  exact clampI128_coe _

theorem fromFixedU128_eval (m : Nat) :
    fromFixedU128 ((m : Nat) : Int) = some (m / 2 ^ 64) := by
  unfold fromFixedU128
  rw [if_neg (by exact not_lt.mpr (Int.natCast_nonneg m)), Int.toNat_natCast]

theorem buy_eval (s : PalletState) (who : AccountId) (x bs bb rs rb : Nat)
    (h1 : s.baseSupplyOfToken = some bs)
    (h2 : s.baseBalanceOfVSToken = some bb)
    (h3 : s.realSupplyOfToken = some rs)
    (h4 : s.realBalanceOfVSToken = some rb)
    (hvs : bs + rs < 2 ^ 63) (hvb : bb + rb < 2 ^ 63)
    (hvb0 : 0 < bb + rb) (hx : x < 2 ^ 63) :
    vstoken_buy_token s who x = Outcome.ok
      { s with
        tokenSheet := fun a => if a = who
          then some (mintedNat (bs + rs) (bb + rb) x) else s.tokenSheet a
        realBalanceOfVSToken := some (rb + x)
        realSupplyOfToken := some (rs + mintedNat (bs + rs) (bb + rb) x) }
      [PEvent.vsTokenToToken x (mintedNat (bs + rs) (bb + rb) x) who] := by
  have hVS : satAddU bs rs = bs + rs := satAddU_eq (by unfold U128MAX; omega)
  have hVB : satAddU bb rb = bb + rb := satAddU_eq (by unfold U128MAX; omega)
  unfold vstoken_buy_token
  rw [h1, h2, h3, h4]
  simp only [hVS, hVB]
  have hfn1 : fromNum (bs + rs) = some (((bs + rs : Nat) : Int) * 2 ^ 64) := by
    unfold fromNum; rw [if_pos hvs]
  have hfn2 : fromNum (bb + rb) = some (((bb + rb : Nat) : Int) * 2 ^ 64) := by
    unfold fromNum; rw [if_pos hvb]
  have hfn3 : fromNum x = some (((x : Nat) : Int) * 2 ^ 64) := by
    unfold fromNum; rw [if_pos hx]
  rw [hfn1, hfn2, hfn3]
  simp only []
  have hvbne : ¬((((bb + rb) : Nat) : Int) * 2 ^ 64 = 0) := by
    have h0 : (0:Int) < (((bb + rb) : Nat) : Int) := by exact_mod_cast hvb0
    exact ne_of_gt (mul_pos h0 (by norm_num))
  rw [if_neg hvbne]
  -- stage values
  rw [fSatDiv_eval]
  have hM1 : min (x * 2 ^ 64 / (bb + rb)) (2 ^ 127 - 1) = x * 2 ^ 64 / (bb + rb) := by
    apply min_eq_left
    calc x * 2 ^ 64 / (bb + rb) <= x * 2 ^ 64 := Nat.div_le_self _ _
    _ <= 2 ^ 127 - 1 := by omega
  rw [hM1, fSatAdd_eval, sqrtF_eval]
  simp only []
  have hS3ge : 2 ^ 64 <= Nat.sqrt (min (2 ^ 64 + x * 2 ^ 64 / (bb + rb)) (2 ^ 127 - 1) * 2 ^ 64) := by
    have h1 : (2:Nat) ^ 64 * 2 ^ 64 <= min (2 ^ 64 + x * 2 ^ 64 / (bb + rb)) (2 ^ 127 - 1) * 2 ^ 64 := by
      have : (2:Nat) ^ 64 <= min (2 ^ 64 + x * 2 ^ 64 / (bb + rb)) (2 ^ 127 - 1) :=
        le_min (Nat.le_add_right _ _) (by norm_num)
      exact Nat.mul_le_mul_right _ this
    calc (2:Nat) ^ 64 = Nat.sqrt (2 ^ 64 * 2 ^ 64) := (Nat.sqrt_eq (2 ^ 64)).symm
    _ <= _ := Nat.sqrt_le_sqrt h1
  rw [fSatSub_eval _ hS3ge]
  have hS3lt : Nat.sqrt (min (2 ^ 64 + x * 2 ^ 64 / (bb + rb)) (2 ^ 127 - 1) * 2 ^ 64) < 2 ^ 96 := by
    have : min (2 ^ 64 + x * 2 ^ 64 / (bb + rb)) (2 ^ 127 - 1) * 2 ^ 64 < 2 ^ 96 * 2 ^ 96 := by
      have := min_le_right (2 ^ 64 + x * 2 ^ 64 / (bb + rb)) ((2:Nat) ^ 127 - 1)
      have h2 : min (2 ^ 64 + x * 2 ^ 64 / (bb + rb)) (2 ^ 127 - 1) * 2 ^ 64
          <= (2 ^ 127 - 1) * 2 ^ 64 := Nat.mul_le_mul_right _ this
      calc min (2 ^ 64 + x * 2 ^ 64 / (bb + rb)) (2 ^ 127 - 1) * 2 ^ 64
          <= (2 ^ 127 - 1) * 2 ^ 64 := h2
      _ < 2 ^ 96 * 2 ^ 96 := by norm_num
    exact Nat.sqrt_lt'.mpr (by rw [pow_two] at *; exact this)
  have hM4 : min (Nat.sqrt (min (2 ^ 64 + x * 2 ^ 64 / (bb + rb)) (2 ^ 127 - 1) * 2 ^ 64) - 2 ^ 64)
      (2 ^ 127 - 1)
      = Nat.sqrt (min (2 ^ 64 + x * 2 ^ 64 / (bb + rb)) (2 ^ 127 - 1) * 2 ^ 64) - 2 ^ 64 := by
    apply min_eq_left
    omega
  rw [hM4, fSatMul_eval, fromFixedU128_eval]
  simp only []
  have hTOKd : min (((Nat.sqrt (min (2 ^ 64 + x * 2 ^ 64 / (bb + rb)) (2 ^ 127 - 1) * 2 ^ 64)
      - 2 ^ 64)) * (bs + rs)) (2 ^ 127 - 1) / 2 ^ 64 < 2 ^ 64 := by
    have h5 := min_le_right (((Nat.sqrt (min (2 ^ 64 + x * 2 ^ 64 / (bb + rb)) (2 ^ 127 - 1) * 2 ^ 64)
      - 2 ^ 64)) * (bs + rs)) ((2:Nat) ^ 127 - 1)
    have h6 := div_le_div_right64 h5
    omega
  have hRS : satAddU rs (min (((Nat.sqrt (min (2 ^ 64 + x * 2 ^ 64 / (bb + rb)) (2 ^ 127 - 1) * 2 ^ 64)
      - 2 ^ 64)) * (bs + rs)) (2 ^ 127 - 1) / 2 ^ 64)
      = rs + min (((Nat.sqrt (min (2 ^ 64 + x * 2 ^ 64 / (bb + rb)) (2 ^ 127 - 1) * 2 ^ 64)
      - 2 ^ 64)) * (bs + rs)) (2 ^ 127 - 1) / 2 ^ 64 := by
    apply satAddU_eq
    unfold U128MAX
    omega
  have hRB : satAddU rb x = rb + x := satAddU_eq (by unfold U128MAX; omega)
  rw [hRS, hRB]
  simp only [mintedNat, SCALE]

theorem fSatSub_one_eval (m : Nat) (h : m <= 2 ^ 64) :
    fSatSub one64 ((m : Nat) : Int) = ((2 ^ 64 - m : Nat) : Int) := by
  unfold fSatSub one64
  have e : ((2:Int) ^ 64 - (m : Int)) = ((2 ^ 64 - m : Nat) : Int) := by
    have e2 : ((2:Int) ^ 64) = ((2 ^ 64 : Nat) : Int) := by push_cast; try ring
    rw [e2, ← Nat.cast_sub h]
  rw [e, clampI128_coe]
  congr 1
  apply min_eq_left
  omega

theorem fSatMul_sq_eval (a : Nat) :
    fSatMul ((a : Nat) : Int) ((a : Nat) : Int)
      = ((min (a * a / 2 ^ 64) (2 ^ 127 - 1) : Nat) : Int) := by
  unfold fSatMul
  have e : ((a : Int) * (a : Int)) = ((a * a : Nat) : Int) := by push_cast; try ring
  have e2 : ((2:Int) ^ 64) = (((2 ^ 64 : Nat) : Nat) : Int) := by push_cast; try ring
  rw [e, e2, fdiv_coe]
  exact clampI128_coe _

theorem sell_eval (s : PalletState) (who : AccountId) (t bs bb rs rb entry : Nat)
    (h1 : s.baseSupplyOfToken = some bs)
    (h2 : s.baseBalanceOfVSToken = some bb)
    (h3 : s.realSupplyOfToken = some rs)
    (h4 : s.realBalanceOfVSToken = some rb)
    (hsheet : s.tokenSheet who = some entry)
    (hvs : bs + rs < 2 ^ 63) (hvb : bb + rb < 2 ^ 63)
    (hvs0 : 0 < bs + rs) (ht : t <= bs + rs) :
    token_buy_vstoken s who t = Outcome.ok
      { s with
        tokenSheet := fun a => if a = who
          then some (entry - t) else s.tokenSheet a
        realBalanceOfVSToken := some (rb - sellY (bs + rs) (bb + rb) t)
        realSupplyOfToken := some (rs - t) }
      [PEvent.tokenToVsToken t (sellY (bs + rs) (bb + rb) t) who] := by
  have hVS : satAddU bs rs = bs + rs := satAddU_eq (by unfold U128MAX; omega)
  have hVB : satAddU bb rb = bb + rb := satAddU_eq (by unfold U128MAX; omega)
  unfold token_buy_vstoken
  rw [h1, h2, h3, h4]
  simp only [hVS, hVB]
  have hfn1 : fromNum (bs + rs) = some (((bs + rs : Nat) : Int) * 2 ^ 64) := by
    unfold fromNum; rw [if_pos hvs]
  have hfn2 : fromNum (bb + rb) = some (((bb + rb : Nat) : Int) * 2 ^ 64) := by
    unfold fromNum; rw [if_pos hvb]
  have hfn3 : fromNum t = some (((t : Nat) : Int) * 2 ^ 64) := by
    unfold fromNum; rw [if_pos (by omega)]
  rw [hfn1, hfn2, hfn3]
  simp only []
  have hvsne : ¬((((bs + rs) : Nat) : Int) * 2 ^ 64 = 0) := by
    have h0 : (0:Int) < (((bs + rs) : Nat) : Int) := by exact_mod_cast hvs0
    exact ne_of_gt (mul_pos h0 (by norm_num))
  rw [if_neg hvsne]
  rw [fSatDiv_eval]
  have hN1 : min (t * 2 ^ 64 / (bs + rs)) (2 ^ 127 - 1) = t * 2 ^ 64 / (bs + rs) := by
    apply min_eq_left
    calc t * 2 ^ 64 / (bs + rs) <= t * 2 ^ 64 := Nat.div_le_self _ _
    _ <= 2 ^ 127 - 1 := by omega
  have hN1le : t * 2 ^ 64 / (bs + rs) <= 2 ^ 64 :=
    Nat.div_le_of_le_mul (by omega)
  rw [hN1, fSatSub_one_eval _ hN1le, fSatMul_sq_eval]
  have hN3 : min ((2 ^ 64 - t * 2 ^ 64 / (bs + rs)) * (2 ^ 64 - t * 2 ^ 64 / (bs + rs)) / 2 ^ 64)
      (2 ^ 127 - 1) = (2 ^ 64 - t * 2 ^ 64 / (bs + rs)) * (2 ^ 64 - t * 2 ^ 64 / (bs + rs)) / 2 ^ 64 := by
    apply min_eq_left
    have hb : (2 ^ 64 - t * 2 ^ 64 / (bs + rs)) * (2 ^ 64 - t * 2 ^ 64 / (bs + rs))
        <= 2 ^ 64 * 2 ^ 64 := Nat.mul_le_mul (Nat.sub_le _ _) (Nat.sub_le _ _)
    have := div_le_div_right64 hb
    omega
  rw [hN3]
  have hN3le : (2 ^ 64 - t * 2 ^ 64 / (bs + rs)) * (2 ^ 64 - t * 2 ^ 64 / (bs + rs)) / 2 ^ 64
      <= 2 ^ 64 := by
    have hb : (2 ^ 64 - t * 2 ^ 64 / (bs + rs)) * (2 ^ 64 - t * 2 ^ 64 / (bs + rs))
        <= 2 ^ 64 * 2 ^ 64 := Nat.mul_le_mul (Nat.sub_le _ _) (Nat.sub_le _ _)
    have := div_le_div_right64 hb
    omega
  rw [fSatSub_one_eval _ hN3le, fSatMul_eval]
  have hY : min ((2 ^ 64 - (2 ^ 64 - t * 2 ^ 64 / (bs + rs)) * (2 ^ 64 - t * 2 ^ 64 / (bs + rs)) / 2 ^ 64)
      * (bb + rb)) (2 ^ 127 - 1)
      = (2 ^ 64 - (2 ^ 64 - t * 2 ^ 64 / (bs + rs)) * (2 ^ 64 - t * 2 ^ 64 / (bs + rs)) / 2 ^ 64)
      * (bb + rb) := by
    apply min_eq_left
    calc (2 ^ 64 - (2 ^ 64 - t * 2 ^ 64 / (bs + rs)) * (2 ^ 64 - t * 2 ^ 64 / (bs + rs)) / 2 ^ 64)
        * (bb + rb) <= 2 ^ 64 * (bb + rb) := Nat.mul_le_mul_right _ (Nat.sub_le _ _)
    _ <= 2 ^ 127 - 1 := by omega
  rw [hY, fromFixedU128_eval]
  simp only [hsheet]
  unfold satSubU
  simp only [sellY, SCALE, pow_two]

/-! ### base_init evaluation -/

theorem base_init_fresh (s : PalletState) (who : AccountId) (b : Nat)
    (h : s.baseSupplyOfToken = none) :
    base_init s who b = Outcome.ok
      { s with
        baseSupplyOfToken := some (satMulU b 2)
        baseBalanceOfVSToken := some b
        realSupplyOfToken := some 0
        realBalanceOfVSToken := some 0 }
      [PEvent.bancorInit (satMulU b 2) b who] := by
  unfold base_init
  rw [h]

theorem base_init_noop (s : PalletState) (who : AccountId) (b v : Nat)
    (h : s.baseSupplyOfToken = some v) :
    base_init s who b = Outcome.ok s [] := by
  unfold base_init
  rw [h]

/-! ### Square-root evaluation -/

theorem sqrt_eq_of_bounds {n q : Nat} (h1 : q * q <= n)
    (h2 : n < (q + 1) * (q + 1)) : Nat.sqrt n = q :=
  (Nat.eq_sqrt.mpr ⟨h1, h2⟩).symm

theorem sqrtA : Nat.sqrt 680564733841876926926749214863536422912
    = 26087635650665564424 :=
  sqrt_eq_of_bounds (by norm_num) (by norm_num)

theorem sqrtB : Nat.sqrt 510423550381407695195061911147652317184
    = 22592555198148962256 :=
  sqrt_eq_of_bounds (by norm_num) (by norm_num)

theorem sqrtC : Nat.sqrt 1361129467683753853853498429727072845824
    = 36893488147419103232 :=
  sqrt_eq_of_bounds (by norm_num) (by norm_num)

theorem sqrtD : Nat.sqrt 348789426093961925042580274988078596096
    = 18675904960508926434 :=
  sqrt_eq_of_bounds (by norm_num) (by norm_num)

theorem sqrtE : Nat.sqrt 357296485266985386621785942544388980736
    = 18902287831555877210 :=
  sqrt_eq_of_bounds (by norm_num) (by norm_num)

/-! ### Concrete amounts -/

theorem mintedNat_fresh1000 : mintedNat 2000 1000 1000 = 828 := by
  rw [mintedNat, SCALE]
  rw [show min (2 ^ 64 + 1000 * 2 ^ 64 / 1000) (2 ^ 127 - 1) * 2 ^ 64
      = 680564733841876926926749214863536422912 from by norm_num]
  rw [sqrtA]
  norm_num

theorem mintedNat_second1000 : mintedNat 2828 2000 1000 = 635 := by
  rw [mintedNat, SCALE]
  rw [show min (2 ^ 64 + 1000 * 2 ^ 64 / 2000) (2 ^ 127 - 1) * 2 ^ 64
      = 510423550381407695195061911147652317184 from by norm_num]
  rw [sqrtB]
  norm_num

theorem mintedNat_ratio3 : mintedNat 20 10 30 = 20 := by
  rw [mintedNat, SCALE]
  rw [show min (2 ^ 64 + 30 * 2 ^ 64 / 10) (2 ^ 127 - 1) * 2 ^ 64
      = 1361129467683753853853498429727072845824 from by norm_num]
  rw [sqrtC]
  norm_num

theorem mintedNat_40_1 : mintedNat 40 40 1 = 0 := by
  rw [mintedNat, SCALE]
  rw [show min (2 ^ 64 + 1 * 2 ^ 64 / 40) (2 ^ 127 - 1) * 2 ^ 64
      = 348789426093961925042580274988078596096 from by norm_num]
  rw [sqrtD]
  norm_num

theorem mintedNat_40_2 : mintedNat 40 40 2 = 0 := by
  rw [mintedNat, SCALE]
  rw [show min (2 ^ 64 + 2 * 2 ^ 64 / 40) (2 ^ 127 - 1) * 2 ^ 64
      = 357296485266985386621785942544388980736 from by norm_num]
  rw [sqrtE]
  norm_num

theorem sellY_2828_2000_900 : sellY 2828 2000 900 = 1070 := by
  unfold sellY SCALE
  norm_num

theorem sellY_2828_2000_828 : sellY 2828 2000 828 = 999 := by
  unfold sellY SCALE
  norm_num

/-! ### Concrete runs

`sInit` is the storage after `base_init(1000)` on fresh storage, `sBuy1`
after a further `vstoken_buy_token(1000)` by account `0`. -/

def sInit : PalletState :=
  { baseSupplyOfToken := some 2000
    baseBalanceOfVSToken := some 1000
    realSupplyOfToken := some 0
    realBalanceOfVSToken := some 0
    tokenSheet := fun _ => none }

def sBuy1 : PalletState :=
  { baseSupplyOfToken := some 2000
    baseBalanceOfVSToken := some 1000
    realSupplyOfToken := some 828
    realBalanceOfVSToken := some 1000
    tokenSheet := fun a => if a = 0 then some 828 else none }

theorem init_1000_eval : base_init initialState 0 1000
    = Outcome.ok sInit [PEvent.bancorInit 2000 1000 0] := by
  rw [base_init_fresh initialState 0 1000 rfl]
  rw [show satMulU 1000 2 = 2000 from by rw [satMulU, U128MAX]; norm_num]
  rfl

theorem buy_1000_eval : vstoken_buy_token sInit 0 1000
    = Outcome.ok sBuy1 [PEvent.vsTokenToToken 1000 828 0] := by
  rw [buy_eval sInit 0 1000 2000 1000 0 0 rfl rfl rfl rfl
    (by norm_num) (by norm_num) (by norm_num) (by norm_num)]
  norm_num [mintedNat_fresh1000]
  rfl

/-- Two consecutive `buy(1000)` calls by account `0` after
`base_init(1000)`. -/
def runTwoBuys : Outcome :=
  andThen (andThen (base_init initialState 0 1000)
    (fun s => vstoken_buy_token s 0 1000))
    (fun s => vstoken_buy_token s 0 1000)

theorem runTwoBuys_eval : runTwoBuys = vstoken_buy_token sBuy1 0 1000 := by
  refine Eq.trans (congrArg (fun o => andThen o
    (fun s => vstoken_buy_token s 0 1000)) ?_)
    (andThen_ok sBuy1 [PEvent.vsTokenToToken 1000 828 0] _)
  refine Eq.trans (congrArg (fun o => andThen o
    (fun s => vstoken_buy_token s 0 1000)) init_1000_eval) ?_
  refine Eq.trans (andThen_ok _ _ _) ?_
  exact buy_1000_eval

/-- Run `base_init(1000)`, `buy(1000)` (entry 828), then `sell(900)` by the
same account: the requested amount exceeds the ledger entry. -/
def runInsufficientSell : Outcome :=
  andThen (andThen (base_init initialState 0 1000)
    (fun s => vstoken_buy_token s 0 1000))
    (fun s => token_buy_vstoken s 0 900)

theorem runInsufficientSell_eval : runInsufficientSell
    = token_buy_vstoken sBuy1 0 900 := by
  refine Eq.trans (congrArg (fun o => andThen o
    (fun s => token_buy_vstoken s 0 900)) ?_)
    (andThen_ok sBuy1 [PEvent.vsTokenToToken 1000 828 0] _)
  refine Eq.trans (congrArg (fun o => andThen o
    (fun s => vstoken_buy_token s 0 1000)) init_1000_eval) ?_
  refine Eq.trans (andThen_ok _ _ _) ?_
  exact buy_1000_eval

/-- Run `base_init(10)` then `buy(30)` by account `0`: the ratio-3 deposit
doubles the virtual supply exactly. -/
def sChain : PalletState :=
  { baseSupplyOfToken := some 20
    baseBalanceOfVSToken := some 10
    realSupplyOfToken := some 20
    realBalanceOfVSToken := some 30
    tokenSheet := fun a => if a = 0 then some 20 else none }

theorem init_10_eval : base_init initialState 0 10
    = Outcome.ok
      { baseSupplyOfToken := some 20
        baseBalanceOfVSToken := some 10
        realSupplyOfToken := some 0
        realBalanceOfVSToken := some 0
        tokenSheet := fun _ => none } [PEvent.bancorInit 20 10 0] := by
  rw [base_init_fresh initialState 0 10 rfl]
  rw [show satMulU 10 2 = 20 from by rw [satMulU, U128MAX]; norm_num]
  rfl

theorem buy_30_eval : vstoken_buy_token
    { baseSupplyOfToken := some 20
      baseBalanceOfVSToken := some 10
      realSupplyOfToken := some 0
      realBalanceOfVSToken := some 0
      tokenSheet := fun _ => none } 0 30
    = Outcome.ok sChain [PEvent.vsTokenToToken 30 20 0] := by
  rw [buy_eval _ 0 30 20 10 0 0 rfl rfl rfl rfl
    (by norm_num) (by norm_num) (by norm_num) (by norm_num)]
  norm_num [mintedNat_ratio3]
  rfl

/-- The two probe buys on the chained state. -/
def runChainBuy1 : Outcome :=
  andThen (andThen (base_init initialState 0 10)
    (fun s => vstoken_buy_token s 0 30))
    (fun s => vstoken_buy_token s 0 1)

def runChainBuy2 : Outcome :=
  andThen (andThen (base_init initialState 0 10)
    (fun s => vstoken_buy_token s 0 30))
    (fun s => vstoken_buy_token s 0 2)

theorem runChainBuy1_eval : runChainBuy1 = vstoken_buy_token sChain 0 1 := by
  refine Eq.trans (congrArg (fun o => andThen o
    (fun s => vstoken_buy_token s 0 1)) ?_)
    (andThen_ok sChain [PEvent.vsTokenToToken 30 20 0] _)
  refine Eq.trans (congrArg (fun o => andThen o
    (fun s => vstoken_buy_token s 0 30)) init_10_eval) ?_
  refine Eq.trans (andThen_ok _ _ _) ?_
  exact buy_30_eval

theorem runChainBuy2_eval : runChainBuy2 = vstoken_buy_token sChain 0 2 := by
  refine Eq.trans (congrArg (fun o => andThen o
    (fun s => vstoken_buy_token s 0 2)) ?_)
    (andThen_ok sChain [PEvent.vsTokenToToken 30 20 0] _)
  refine Eq.trans (congrArg (fun o => andThen o
    (fun s => vstoken_buy_token s 0 30)) init_10_eval) ?_
  refine Eq.trans (andThen_ok _ _ _) ?_
  exact buy_30_eval

/-! ### Generic no-error and frame lemmas -/

/-- Dispatchable `vstoken_buy_token` never returns a dispatch error: every branch is a
success or a panic. -/
theorem buy_no_err (s : PalletState) (who : AccountId) (a : Nat)
    (e : SpecError) : vstoken_buy_token s who a ≠ Outcome.err e := by
  unfold vstoken_buy_token
  dsimp only
  repeat' split
  all_goals simp

/-- Dispatchable `token_buy_vstoken` never returns a dispatch error. -/
theorem sell_no_err (s : PalletState) (who : AccountId) (a : Nat)
    (e : SpecError) : token_buy_vstoken s who a ≠ Outcome.err e := by
  unfold token_buy_vstoken
  dsimp only
  repeat' split
  all_goals simp

/-- Dispatchable `base_init` always succeeds. -/
theorem base_init_ok (s : PalletState) (who : AccountId) (b : Nat) :
    ∃ s1 ev, base_init s who b = Outcome.ok s1 ev := by
  cases h : s.baseSupplyOfToken with
  | none => exact ⟨_, _, base_init_fresh s who b h⟩
  | some v => exact ⟨s, [], base_init_noop s who b v h⟩

/-- Monotonicity of the minted amount in the deposit, all saturation
points included. -/
theorem mintedNat_mono (vsup vbal : Nat) {x1 x2 : Nat} (h : x1 <= x2) :
    mintedNat vsup vbal x1 <= mintedNat vsup vbal x2 := by
  simp only [mintedNat]
  apply Nat.div_le_div_right
  apply min_le_min _ le_rfl
  apply Nat.mul_le_mul_right
  apply Nat.sub_le_sub_right
  apply Nat.sqrt_le_sqrt
  apply Nat.mul_le_mul_right
  apply min_le_min _ le_rfl
  apply Nat.add_le_add_left
  apply Nat.div_le_div_right
  exact Nat.mul_le_mul_right _ h

/-! ### Claim theorems -/

/-- C9: every successful `vstoken_buy_token` (buy) and every successful
`token_buy_vstoken` (sell) writes only `RealSupplyOfToken`,
`RealBalanceOfVSToken` and the calling account's own `TokenSheet` entry:
`BaseSupplyOfToken` and `BaseBalanceOfVSToken` keep the values set at
initialization, and every other account's entry (present or absent) is
unchanged. -/
theorem buy_sell_frame :
    (∀ s who a s2 ev, vstoken_buy_token s who a = Outcome.ok s2 ev →
      s2.baseSupplyOfToken = s.baseSupplyOfToken
      ∧ s2.baseBalanceOfVSToken = s.baseBalanceOfVSToken
      ∧ ∀ acc, acc ≠ who → s2.tokenSheet acc = s.tokenSheet acc)
  ∧ (∀ s who a s2 ev, token_buy_vstoken s who a = Outcome.ok s2 ev →
      s2.baseSupplyOfToken = s.baseSupplyOfToken
      ∧ s2.baseBalanceOfVSToken = s.baseBalanceOfVSToken
      ∧ ∀ acc, acc ≠ who → s2.tokenSheet acc = s.tokenSheet acc) := by
  constructor
  · intro s who a s2 ev h
    unfold vstoken_buy_token at h
    dsimp only at h
    repeat' split at h
    all_goals
      first
        | (injection h with h1 h2
           subst h1
           exact ⟨rfl, rfl, fun acc hacc => if_neg hacc⟩)
        | injection h
  · intro s who a s2 ev h
    unfold token_buy_vstoken at h
    dsimp only at h
    repeat' split at h
    all_goals
      first
        | (injection h with h1 h2
           subst h1
           exact ⟨rfl, rfl, fun acc hacc => if_neg hacc⟩)
        | injection h

/-- C1: after `base_init(1000)` and a first `buy(1000)` by account `0`
(credited 828), a second `buy(1000)` by the same account mints 635 but
leaves the account's ledger entry at 635, not 828 + 635 = 1463: the source
overwrites the `TokenSheet` entry (`insert`) instead of adding to it,
while `real_supply` does receive the sum.  This refutes the claim's
"ledger[caller] += minted" effect on a concrete run. -/
theorem buy_overwrites_ledger_entry :
    ledgerOf runTwoBuys 0 = some 635
  ∧ realSupplyOf runTwoBuys = some 1463
  ∧ (828 + 635 : Nat) ≠ 635 := by
  have h := buy_eval sBuy1 0 1000 2000 1000 828 1000 rfl rfl rfl rfl
    (by norm_num) (by norm_num) (by norm_num) (by norm_num)
  refine ⟨?_, ?_, by norm_num⟩
  · rw [runTwoBuys_eval, h]
    norm_num [ledgerOf, mintedNat_second1000]
  · rw [runTwoBuys_eval, h]
    norm_num [realSupplyOf, mintedNat_second1000]

/-- C4: on the same two-buy run, `real_supply` is 1463 while the ledger
holds a single entry of 635 (unique account `0`; account `1` is shown
absent as a sample): the conservation invariant `real_supply = sum of all
ledger entries` fails because the buy path overwrites the entry. -/
theorem conservation_violated_by_second_buy :
    realSupplyOf runTwoBuys = some 1463
  ∧ ledgerOf runTwoBuys 0 = some 635
  ∧ ledgerOf runTwoBuys 1 = none
  ∧ (1463 : Nat) ≠ 635 := by
  have h := buy_eval sBuy1 0 1000 2000 1000 828 1000 rfl rfl rfl rfl
    (by norm_num) (by norm_num) (by norm_num) (by norm_num)
  refine ⟨?_, ?_, ?_, by norm_num⟩
  · rw [runTwoBuys_eval, h]
    norm_num [realSupplyOf, mintedNat_second1000]
  · rw [runTwoBuys_eval, h]
    norm_num [ledgerOf, mintedNat_second1000]
  · rw [runTwoBuys_eval, h]
    norm_num [ledgerOf, sBuy1]

/-- C2: after `base_init(1000)` and `buy(1000)` (ledger entry 828),
`sell(900)` with 900 greater than the entry does not return an
`InsufficientTokenBalance` error: it succeeds, returns 1070 vstokens, and
saturates the entry, `real_supply` and `real_balance` to 0. -/
theorem insufficient_sell_not_rejected :
    returnedOf runInsufficientSell = some 1070
  ∧ realSupplyOf runInsufficientSell = some 0
  ∧ realBalanceOf runInsufficientSell = some 0
  ∧ ledgerOf runInsufficientSell 0 = some 0
  ∧ (828 : Nat) < 900 := by
  have h := sell_eval sBuy1 0 900 2000 1000 828 1000 828 rfl rfl rfl rfl rfl
    (by norm_num) (by norm_num) (by norm_num) (by norm_num)
  refine ⟨?_, ?_, ?_, ?_, by norm_num⟩
  · rw [runInsufficientSell_eval, h]
    norm_num [returnedOf, sellY_2828_2000_900]
  · rw [runInsufficientSell_eval, h]
    norm_num [realSupplyOf]
  · rw [runInsufficientSell_eval, h]
    norm_num [realBalanceOf, sellY_2828_2000_900]
  · rw [runInsufficientSell_eval, h]
    norm_num [ledgerOf]

/-- C3: on storage on which `base_init` has never run, both `buy` and
`sell` abort with a panic (the unchecked storage `unwrap`), leaving no
state behind; no `CurveNotInitialized` error is returned -- the source has
no such error. -/
theorem uninitialized_buy_sell_panic :
    vstoken_buy_token initialState 0 5 = Outcome.panicked
  ∧ token_buy_vstoken initialState 0 5 = Outcome.panicked
  ∧ Outcome.panicked ≠ Outcome.err SpecError.curveNotInitialized := by
  refine ⟨rfl, rfl, by simp⟩

/-- C6: any two consecutive `base_init` calls, with arbitrary callers and
arguments and from an arbitrary starting state: the first yields some
state `s1`, and the second succeeds and returns exactly `s1` (no event,
no change). -/
theorem init_idempotent (s : PalletState) (w1 w2 : AccountId) (b1 b2 : Nat) :
    ∃ s1 ev1, base_init s w1 b1 = Outcome.ok s1 ev1
      ∧ base_init s1 w2 b2 = Outcome.ok s1 [] := by
  cases h : s.baseSupplyOfToken with
  | none =>
    refine ⟨_, _, base_init_fresh s w1 b1 h, ?_⟩
    exact base_init_noop _ w2 b2 (satMulU b1 2) rfl
  | some v =>
    exact ⟨s, [], base_init_noop s w1 b1 v h, base_init_noop s w2 b2 v h⟩

/-- C7 counterexample: `base_init(2^127)` on fresh storage succeeds and
stores `base_supply = 2^128 - 1` (the saturated value, not the exact
product `2^128`), surfacing no `ArithmeticOverflow` error. -/
theorem overflowing_init_saturates_silently :
    baseSupplyOf (base_init initialState 0 (2 ^ 127)) = some (2 ^ 128 - 1)
  ∧ base_init initialState 0 (2 ^ 127) ≠ Outcome.err SpecError.arithmeticOverflow
  ∧ (2 ^ 127 * 2 : Nat) ≠ 2 ^ 128 - 1 := by
  rw [base_init_fresh initialState 0 (2 ^ 127) rfl]
  refine ⟨?_, by simp, by norm_num⟩
  norm_num [baseSupplyOf, satMulU, U128MAX]

/-- C7 amended: no operation ever surfaces an arithmetic error: all three
dispatchables are error-free (`base_init` always succeeds; `buy`/`sell`
succeed or panic), and an initializing `base_init` stores the clamped
product `min (b * 2) (2^128 - 1)`. -/
theorem arithmetic_saturates_never_errors (s : PalletState)
    (who : AccountId) (b : Nat) (e : SpecError) :
    (∃ s1 ev, base_init s who b = Outcome.ok s1 ev)
  ∧ base_init s who b ≠ Outcome.err e
  ∧ vstoken_buy_token s who b ≠ Outcome.err e
  ∧ token_buy_vstoken s who b ≠ Outcome.err e
  ∧ (s.baseSupplyOfToken = none →
      baseSupplyOf (base_init s who b) = some (min (b * 2) U128MAX)) := by
  refine ⟨base_init_ok s who b, ?_, buy_no_err s who b e, sell_no_err s who b e, ?_⟩
  · rcases base_init_ok s who b with ⟨s1, ev, hok⟩
    rw [hok]
    simp
  · intro hnone
    rw [base_init_fresh s who b hnone]
    rfl

/-- Witness for the amended C7 at concrete inputs, the initialization
clause discharged at the fresh state. -/
theorem arithmetic_saturates_never_errors_witness :
    (∃ s1 ev, base_init initialState 0 7 = Outcome.ok s1 ev)
  ∧ base_init initialState 0 7 ≠ Outcome.err SpecError.arithmeticOverflow
  ∧ vstoken_buy_token initialState 0 7 ≠ Outcome.err SpecError.arithmeticOverflow
  ∧ token_buy_vstoken initialState 0 7 ≠ Outcome.err SpecError.arithmeticOverflow
  ∧ baseSupplyOf (base_init initialState 0 7) = some (min (7 * 2) U128MAX) := by
  obtain ⟨h1, h2, h3, h4, h5⟩ :=
    arithmetic_saturates_never_errors initialState 0 7 SpecError.arithmeticOverflow
  exact ⟨h1, h2, h3, h4, h5 rfl⟩

/-- C8 counterexample: on the reachable curve state after `base_init(10)`
and `buy(30)` (virtual supply 40, virtual balance 40), the deposits 1 and
2 both mint 0 tokens: strict monotonicity `minted(1) < minted(2)` fails. -/
theorem buy_strict_monotonicity_fails :
    mintedOf runChainBuy1 = some 0
  ∧ mintedOf runChainBuy2 = some 0
  ∧ (1 : Nat) < 2 := by
  refine ⟨?_, ?_, by norm_num⟩
  · rw [runChainBuy1_eval, buy_eval sChain 0 1 20 10 20 30 rfl rfl rfl rfl
      (by norm_num) (by norm_num) (by norm_num) (by norm_num)]
    norm_num [mintedOf, mintedNat_40_1]
  · rw [runChainBuy2_eval, buy_eval sChain 0 2 20 10 20 30 rfl rfl rfl rfl
      (by norm_num) (by norm_num) (by norm_num) (by norm_num)]
    norm_num [mintedOf, mintedNat_40_2]

/-- C8 amended: on any fixed initialized curve state on which buy
succeeds, the minted amount is monotone (non-strictly) in the deposit:
`x1 <= x2` gives `minted(x1) <= minted(x2)`. -/
theorem buy_monotone_nonstrict (s : PalletState) (who : AccountId)
    (x1 x2 bs bb rs rb : Nat)
    (h1 : s.baseSupplyOfToken = some bs)
    (h2 : s.baseBalanceOfVSToken = some bb)
    (h3 : s.realSupplyOfToken = some rs)
    (h4 : s.realBalanceOfVSToken = some rb)
    (hvs : bs + rs < 2 ^ 63) (hvb : bb + rb < 2 ^ 63)
    (hvb0 : 0 < bb + rb) (hx2 : x2 < 2 ^ 63) (hx12 : x1 <= x2) :
    mintedOf (vstoken_buy_token s who x1) = some (mintedNat (bs + rs) (bb + rb) x1)
  ∧ mintedOf (vstoken_buy_token s who x2) = some (mintedNat (bs + rs) (bb + rb) x2)
  ∧ mintedNat (bs + rs) (bb + rb) x1 <= mintedNat (bs + rs) (bb + rb) x2 := by
  refine ⟨?_, ?_, mintedNat_mono _ _ hx12⟩
  · rw [buy_eval s who x1 bs bb rs rb h1 h2 h3 h4 hvs hvb hvb0 (by omega)]
    rfl
  · rw [buy_eval s who x2 bs bb rs rb h1 h2 h3 h4 hvs hvb hvb0 hx2]
    rfl

/-- Witness for the amended C8 at concrete inputs. -/
theorem buy_monotone_nonstrict_witness :
    mintedOf (vstoken_buy_token sChain 0 1) = some (mintedNat (20 + 20) (10 + 30) 1)
  ∧ mintedOf (vstoken_buy_token sChain 0 2) = some (mintedNat (20 + 20) (10 + 30) 2)
  ∧ mintedNat (20 + 20) (10 + 30) 1 <= mintedNat (20 + 20) (10 + 30) 2 :=
  buy_monotone_nonstrict sChain 0 1 2 20 10 20 30 rfl rfl rfl rfl
    (by norm_num) (by norm_num) (by norm_num) (by norm_num) (by norm_num)

/-- Storage after `base_init(1000)`, `buy(1000)`, `sell(828)` by
account `0`. -/
def sSold : PalletState :=
  { baseSupplyOfToken := some 2000
    baseBalanceOfVSToken := some 1000
    realSupplyOfToken := some 0
    realBalanceOfVSToken := some 1
    tokenSheet := fun a => if a = 0 then some 0 else sBuy1.tokenSheet a }

theorem sell_828_eval : token_buy_vstoken sBuy1 0 828
    = Outcome.ok sSold [PEvent.tokenToVsToken 828 999 0] := by
  rw [sell_eval sBuy1 0 828 2000 1000 828 1000 828 rfl rfl rfl rfl rfl
    (by norm_num) (by norm_num) (by norm_num) (by norm_num)]
  norm_num [sellY_2828_2000_828]
  rfl

/-- Witness for C9 (`buy_sell_frame`) on the concrete run: the successful
buy from `sInit` and the successful sell from `sBuy1` leave the base
counters and account `1`'s (absent) entry untouched. -/
theorem buy_sell_frame_witness :
    sBuy1.baseSupplyOfToken = sInit.baseSupplyOfToken
  ∧ sBuy1.tokenSheet 1 = sInit.tokenSheet 1
  ∧ sSold.baseBalanceOfVSToken = sBuy1.baseBalanceOfVSToken
  ∧ sSold.tokenSheet 1 = sBuy1.tokenSheet 1 := by
  have hb := buy_sell_frame.1 sInit 0 1000 sBuy1
    [PEvent.vsTokenToToken 1000 828 0] buy_1000_eval
  have hs := buy_sell_frame.2 sBuy1 0 828 sSold
    [PEvent.tokenToVsToken 828 999 0] sell_828_eval
  exact ⟨hb.1, hb.2.2 1 (by norm_num), hs.2.1, hs.2.2 1 (by norm_num)⟩

/-- C10: from fresh storage, `base_init(1000)` stores exactly
base_supply 2000, base_balance 1000, real_supply 0, real_balance 0, and a
following `buy(1000)` (against virtual supply 2000 and virtual balance
1000) mints exactly 828 tokens, leaving real_supply 828 and
real_balance 1000. -/
theorem concrete_scenario_init_buy :
    base_init initialState 0 1000 = Outcome.ok sInit [PEvent.bancorInit 2000 1000 0]
  ∧ sInit.baseSupplyOfToken = some 2000
  ∧ sInit.baseBalanceOfVSToken = some 1000
  ∧ sInit.realSupplyOfToken = some 0
  ∧ sInit.realBalanceOfVSToken = some 0
  ∧ vstoken_buy_token sInit 0 1000 = Outcome.ok sBuy1 [PEvent.vsTokenToToken 1000 828 0]
  ∧ sBuy1.realSupplyOfToken = some 828
  ∧ sBuy1.realBalanceOfVSToken = some 1000 :=
  ⟨init_1000_eval, rfl, rfl, rfl, rfl, buy_1000_eval, rfl, rfl⟩

/-! ### Round-trip accuracy (C5)

The buy-then-sell round trip on a freshly initialized curve, in exact
integer arithmetic.  `roundtrip_upper` and `roundtrip_lower` are the two
halves over the integers, stated over the division/square-root witnesses;
`roundtrip_bounds` instantiates them for `buyT`/`sellY`. -/

set_option maxHeartbeats 2000000 in
theorem roundtrip_upper (B x m1 s t n1 n3 y r3 r4 r5 : ℤ)
    (hB1 : 16 <= B) (hx1 : 1 <= x) (hx2 : x <= B)
    (hBx : B + x <= 2 ^ 20)
    (hnn : 0 <= t ∧ 0 <= n1 ∧ 0 <= n3 ∧ 0 <= y ∧ 0 <= s ∧ 0 <= m1)
    (hm1 : B * m1 <= x * 2 ^ 64)
    (hs : s * s <= (2 ^ 64 + m1) * 2 ^ 64)
    (ht : t * 2 ^ 64 <= (s - 2 ^ 64) * (2 * B))
    (hn1 : t * 2 ^ 64 = (2 * B + t) * n1 + r3) (hr3 : 0 <= r3)
    (hn3 : (2 ^ 64 - n1) * (2 ^ 64 - n1) = 2 ^ 64 * n3 + r4)
    (hr4 : 0 <= r4 ∧ r4 < 2 ^ 64)
    (hy : (2 ^ 64 - n3) * (B + x) = 2 ^ 64 * y + r5) (hr5 : 0 <= r5) :
    y <= x := by
  obtain ⟨hts, hn1n, hn3n, hyn, hsn, hm1n⟩ := hnn
  have hS : (0:ℤ) < 2 ^ 64 := by norm_num
  have hBpos : (0:ℤ) < B := by linarith
  have hN : (0:ℤ) < 2 * B + t := by linarith
  have hM : (0:ℤ) < B + x := by linarith
  -- u1 : B s^2 <= (B+x) S^2
  have u1 : B * (s * s) <= (B + x) * (2 ^ 64 * 2 ^ 64) := by
    nlinarith [mul_le_mul_of_nonneg_left hs (le_of_lt hBpos),
      mul_le_mul_of_nonneg_right hm1 (le_of_lt hS)]
  -- u2 : 2 B s <= (2B + x) S
  have u2 : 2 * B * s <= (2 * B + x) * 2 ^ 64 := by
    by_contra hcon
    push_neg at hcon
    have h2 : ((2 * B + x) * 2 ^ 64) * ((2 * B + x) * 2 ^ 64)
        < (2 * B * s) * (2 * B * s) :=
      mul_self_lt_mul_self (by positivity) hcon
    nlinarith [u1, sq_nonneg x]
  -- u3 : (2B + t) S <= 2 B s
  have u3 : (2 * B + t) * 2 ^ 64 <= 2 * B * s := by nlinarith [ht]
  -- hN3B : 2B + t <= 2B + x  (hence N <= 3B)
  have hNx : (2 * B + t) * 2 ^ 64 <= (2 * B + x) * 2 ^ 64 := le_trans u3 u2
  have hN3B : 2 * B + t <= 2 * B + x := le_of_mul_le_mul_right hNx hS
  -- u4 : N^2 <= 4 B (B+x)
  have u4 : (2 * B + t) * (2 * B + t) <= 4 * B * (B + x) := by
    have h1 : ((2 * B + t) * 2 ^ 64) * ((2 * B + t) * 2 ^ 64)
        <= (2 * B * s) * (2 * B * s) :=
      mul_le_mul u3 u3 (by positivity) (by nlinarith)
    have h2 : (2 * B * s) * (2 * B * s) <= 4 * B * (B + x) * (2 ^ 64 * 2 ^ 64) := by
      nlinarith [mul_le_mul_of_nonneg_left u1 (by linarith : (0:ℤ) <= 4 * B)]
    have h3 : ((2 * B + t) * (2 * B + t)) * (2 ^ 64 * 2 ^ 64)
        <= (4 * B * (B + x)) * (2 ^ 64 * 2 ^ 64) := by nlinarith [h1, h2]
    exact le_of_mul_le_mul_right h3 (by positivity)
  -- u5 : N n2 >= 2 B S  (n2 = S - n1)
  have hn1up : (2 * B + t) * n1 <= t * 2 ^ 64 := by linarith [hn1, hr3]
  have u5 : 2 * B * 2 ^ 64 <= (2 * B + t) * (2 ^ 64 - n1) := by nlinarith [hn1up]
  -- u6 : S n3 >= n2^2 - S + 1
  have u6 : (2 ^ 64 - n1) * (2 ^ 64 - n1) - 2 ^ 64 + 1 <= 2 ^ 64 * n3 := by
    linarith [hn3, hr4.2]
  -- n2 >= 0
  have hn1S : n1 <= 2 ^ 64 := by
    have h1 : (2 * B + t) * n1 <= (2 * B + t) * 2 ^ 64 := by nlinarith [hn1up]
    exact le_of_mul_le_mul_left h1 hN
  -- final: y <= x
  have key : (2 ^ 64 - n3) * (B + x) * ((2 * B + t) * (2 * B + t))
      < (x + 1) * 2 ^ 64 * ((2 * B + t) * (2 * B + t)) := by
    have e5 : ((2 * B + t) * (2 ^ 64 - n1)) * ((2 * B + t) * (2 ^ 64 - n1))
        >= (2 * B * 2 ^ 64) * (2 * B * 2 ^ 64) :=
      mul_le_mul u5 u5 (by positivity) (by nlinarith [u5])
    have c0 : 2 ^ 64 * (2 ^ 64 - n3)
        <= 2 ^ 64 * 2 ^ 64 - (2 ^ 64 - n1) * (2 ^ 64 - n1) + 2 ^ 64 - 1 := by
      linarith [u6]
    have cMN : (0:ℤ) <= (B + x) * ((2 * B + t) * (2 * B + t)) := by positivity
    have c1 : 2 ^ 64 * (2 ^ 64 - n3) * ((B + x) * ((2 * B + t) * (2 * B + t)))
        <= (2 ^ 64 * 2 ^ 64 - (2 ^ 64 - n1) * (2 ^ 64 - n1) + 2 ^ 64 - 1)
          * ((B + x) * ((2 * B + t) * (2 * B + t))) :=
      mul_le_mul_of_nonneg_right c0 cMN
    have c2 : (B + x) * (((2 * B + t) * (2 ^ 64 - n1)) * ((2 * B + t) * (2 ^ 64 - n1)))
        >= (B + x) * ((2 * B * 2 ^ 64) * (2 * B * 2 ^ 64)) :=
      mul_le_mul_of_nonneg_left e5 (le_of_lt hM)
    have c4p : (0:ℤ) <= (B + x) * (2 ^ 64 * 2 ^ 64 + 2 ^ 64 - 1) - (x + 1) * (2 ^ 64 * 2 ^ 64) := by
      nlinarith [hBx]
    have c4 : ((B + x) * (2 ^ 64 * 2 ^ 64 + 2 ^ 64 - 1) - (x + 1) * (2 ^ 64 * 2 ^ 64))
          * ((2 * B + t) * (2 * B + t))
        <= ((B + x) * (2 ^ 64 * 2 ^ 64 + 2 ^ 64 - 1) - (x + 1) * (2 ^ 64 * 2 ^ 64))
          * (4 * B * (B + x)) :=
      mul_le_mul_of_nonneg_left u4 c4p
    have c5 : ((B + x) * (2 ^ 64 * 2 ^ 64 + 2 ^ 64 - 1) - (x + 1) * (2 ^ 64 * 2 ^ 64))
          * (4 * B * (B + x))
        < (B + x) * ((2 * B * 2 ^ 64) * (2 * B * 2 ^ 64)) := by
      nlinarith [hBx, hM, hBpos, mul_pos hM hBpos]
    have c6 : 2 ^ 64 * ((2 ^ 64 - n3) * (B + x) * ((2 * B + t) * (2 * B + t)))
        < 2 ^ 64 * ((x + 1) * 2 ^ 64 * ((2 * B + t) * (2 * B + t))) := by
      nlinarith [c1, c2, c4, c5]
    exact lt_of_mul_lt_mul_left c6 (by positivity)
  have hyS : 2 ^ 64 * y * ((2 * B + t) * (2 * B + t))
      <= (2 ^ 64 - n3) * (B + x) * ((2 * B + t) * (2 * B + t)) := by
    nlinarith [hy, hr5, mul_pos hN hN]
  have : 2 ^ 64 * y * ((2 * B + t) * (2 * B + t))
      < (x + 1) * 2 ^ 64 * ((2 * B + t) * (2 * B + t)) := lt_of_le_of_lt hyS key
  have hyx1 : y < x + 1 := by
    have h1 : 2 ^ 64 * ((2 * B + t) * (2 * B + t)) * y
        < 2 ^ 64 * ((2 * B + t) * (2 * B + t)) * (x + 1) := by ring_nf at this ⊢; linarith
    exact lt_of_mul_lt_mul_left h1 (by positivity)
  linarith

set_option maxHeartbeats 1000000 in
theorem rt_l4 (B x s : ℤ) (hB1 : 16 <= B) (hB2 : B <= 2 ^ 19)
    (hx1 : 2 <= x) (hx2 : x <= B) (hsn : 0 <= s)
    (l5 : B * ((s + 1) * (s + 1))
      >= (B + x) * (2 ^ 64 * 2 ^ 64) - (B - 1) * 2 ^ 64 + B)
    (u2 : 2 * B * s <= (2 * B + x) * 2 ^ 64) :
    (B + 1) * ((2 * B * s - 2 ^ 64 + 1) * (2 * B * s - 2 ^ 64 + 1))
      >= (4 * B * B * (B + x) + 1) * (2 ^ 64 * 2 ^ 64) := by
  have hBpos : (0:ℤ) < B := by linarith
  have hint1 : (0:ℤ) <= (B + 1) * 4 * B * (B * ((s + 1) * (s + 1))
      - ((B + x) * (2 ^ 64 * 2 ^ 64) - (B - 1) * 2 ^ 64 + B)) :=
    mul_nonneg (by positivity) (by linarith)
  have hint2 : (0:ℤ) <= 2 * (B + 1) * (2 ^ 64 + 2 * B - 1)
      * ((2 * B + x) * 2 ^ 64 - 2 * B * s) :=
    mul_nonneg (mul_nonneg (by linarith) (by linarith)) (by linarith)
  have hc : (0:ℤ) <= 2 * B * x - 3 * B - 2 * x - 1 := by
    nlinarith [mul_nonneg (by linarith : (0:ℤ) <= B - 16) (by linarith : (0:ℤ) <= x - 2)]
  have hBB : B * B <= 2 ^ 38 := by nlinarith
  have hB3 : B * B * B <= 2 ^ 57 := by nlinarith [hBB]
  have hW : 4 * B * (B + 1) * (B - 1) + 2 * (B + 1)
      + 2 * (B + 1) * (2 * B + x) * (2 * B - 1) <= 29 * (B * B * B) := by
    nlinarith [mul_nonneg hBpos.le (by linarith : (0:ℤ) <= B - x),
      mul_nonneg (mul_nonneg hBpos.le hBpos.le) (by linarith : (0:ℤ) <= B - x)]
  have hD : (0:ℤ) <= (2 ^ 64 * 2 ^ 64) * (2 * B * x - 3 * B - 2 * x)
      - 2 ^ 64 * (4 * B * (B + 1) * (B - 1) + 2 * (B + 1)
        + 2 * (B + 1) * (2 * B + x) * (2 * B - 1))
      + (B + 1) := by
    nlinarith [hc, hW, hB3]
  nlinarith [hint1, hint2, hD]

theorem rt_rhs_small (B x N : ℤ) (hB1 : 16 <= B) (hB2 : B <= 2 ^ 19)
    (hx2 : x <= B) (_hx0 : 0 <= x) (hN0 : 0 < N) (hN3B : N <= 3 * B) :
    (B + x) * (N - 1) * (4 * B * 2 ^ 64 + N - 1) <= 2 ^ 64 * 2 ^ 64 := by
  have hBpos : (0:ℤ) < B := by linarith
  have hBB : B * B <= 2 ^ 38 := by nlinarith
  have hB3 : B * B * B <= 2 ^ 57 := by nlinarith [hBB]
  have p1 : (B + x) * (N - 1) <= 2 * B * (3 * B) :=
    mul_le_mul (by linarith) (by linarith) (by linarith) (by linarith)
  have p2 : (B + x) * (N - 1) * (4 * B * 2 ^ 64 + N - 1)
      <= 2 * B * (3 * B) * (4 * B * 2 ^ 64 + 3 * B) :=
    mul_le_mul p1 (by linarith) (by nlinarith) (by nlinarith)
  nlinarith [p2, hB3, hBB]

theorem rt_l1 (B x t _n3 : ℤ) (_hx1 : 2 <= x) (_hB1 : 16 <= B)
    (_hN0 : 0 < 2 * B + t)
    (l3 : (B + 1) * ((2 * B + t) * (2 * B + t)) >= 4 * B * B * (B + x) + 1)
    (hrhs : (B + x) * ((2 * B + t) - 1) * (4 * B * 2 ^ 64 + (2 * B + t) - 1)
      <= 2 ^ 64 * 2 ^ 64) :
    (B + x) * ((2 ^ 64 * 2 ^ 64) * ((2 * B + t) * (2 * B + t))
        - (2 * B * 2 ^ 64 + (2 * B + t) - 1) * (2 * B * 2 ^ 64 + (2 * B + t) - 1))
      >= (x - 1) * ((2 ^ 64 * 2 ^ 64) * ((2 * B + t) * (2 * B + t))) := by
  have hbr : (1:ℤ) <= (B + 1) * ((2 * B + t) * (2 * B + t)) - 4 * B * B * (B + x) := by
    linarith
  have hS2 : (0:ℤ) <= 2 ^ 64 * 2 ^ 64 := by positivity
  nlinarith [mul_le_mul_of_nonneg_left hbr hS2, hrhs]

set_option maxHeartbeats 4000000 in
theorem roundtrip_lower (B x m1 s t n1 n3 y r1 r2 r3 r4 r5 : ℤ)
    (hB1 : 16 <= B) (hB2 : B <= 2 ^ 19) (hx1 : 2 <= x) (hx2 : x <= B)
    (hnn : 0 <= t ∧ 0 <= n1 ∧ 0 <= n3 ∧ 0 <= y ∧ 0 <= s ∧ 0 <= m1)
    (hm1 : x * 2 ^ 64 = B * m1 + r1) (hr1 : 0 <= r1 ∧ r1 < B)
    (hs : s * s <= (2 ^ 64 + m1) * 2 ^ 64)
    (hs2 : (2 ^ 64 + m1) * 2 ^ 64 < (s + 1) * (s + 1))
    (hsS : 2 ^ 64 <= s)
    (ht : (s - 2 ^ 64) * (2 * B) = 2 ^ 64 * t + r2) (hr2 : 0 <= r2 ∧ r2 < 2 ^ 64)
    (hn1 : t * 2 ^ 64 = (2 * B + t) * n1 + r3) (hr3 : 0 <= r3 ∧ r3 < 2 * B + t)
    (hn3 : (2 ^ 64 - n1) * (2 ^ 64 - n1) = 2 ^ 64 * n3 + r4)
    (hr4 : 0 <= r4 ∧ r4 < 2 ^ 64)
    (hy : (2 ^ 64 - n3) * (B + x) = 2 ^ 64 * y + r5) (hr5 : 0 <= r5 ∧ r5 < 2 ^ 64) :
    x <= y + 1 := by
  obtain ⟨hts, hn1n, hn3n, hyn, hsn, hm1n⟩ := hnn
  have hS : (0:ℤ) < 2 ^ 64 := by norm_num
  have hBpos : (0:ℤ) < B := by linarith
  have hN : (0:ℤ) < 2 * B + t := by linarith
  have hM : (0:ℤ) < B + x := by linarith
  have hBm1up : B * m1 <= x * 2 ^ 64 := by linarith [hm1, hr1.1]
  have hBm1low : x * 2 ^ 64 - B + 1 <= B * m1 := by linarith [hm1, hr1.2]
  have u1 : B * (s * s) <= (B + x) * (2 ^ 64 * 2 ^ 64) := by
    nlinarith [mul_le_mul_of_nonneg_left hs (le_of_lt hBpos),
      mul_le_mul_of_nonneg_right hBm1up (le_of_lt hS)]
  have u2 : 2 * B * s <= (2 * B + x) * 2 ^ 64 := by
    by_contra hcon
    push_neg at hcon
    have h2 : ((2 * B + x) * 2 ^ 64) * ((2 * B + x) * 2 ^ 64)
        < (2 * B * s) * (2 * B * s) :=
      mul_self_lt_mul_self (by positivity) hcon
    nlinarith [u1, sq_nonneg x]
  have u3 : (2 * B + t) * 2 ^ 64 <= 2 * B * s := by nlinarith [ht, hr2.1]
  have hN3B : 2 * B + t <= 2 * B + x :=
    le_of_mul_le_mul_right (le_trans u3 u2) hS
  have l5 : B * ((s + 1) * (s + 1))
      >= (B + x) * (2 ^ 64 * 2 ^ 64) - (B - 1) * 2 ^ 64 + B := by
    nlinarith [mul_le_mul_of_nonneg_left (le_of_lt hs2) (le_of_lt hBpos),
      mul_le_mul_of_nonneg_right hBm1low (le_of_lt hS)]
  have l_t : 2 * B * s - 2 ^ 64 + 1 <= (2 * B + t) * 2 ^ 64 := by
    nlinarith [ht, hr2.2]
  have hA0 : (0:ℤ) <= 2 * B * s - 2 ^ 64 + 1 := by nlinarith [hsS, hB1]
  have l4 := rt_l4 B x s hB1 hB2 hx1 hx2 hsn l5 u2
  clear hs hs2 hm1 hBm1up hBm1low u1 l5 hm1n
  have l3 : (B + 1) * ((2 * B + t) * (2 * B + t)) >= 4 * B * B * (B + x) + 1 := by
    have c1 : (2 * B * s - 2 ^ 64 + 1) * (2 * B * s - 2 ^ 64 + 1)
        <= ((2 * B + t) * 2 ^ 64) * ((2 * B + t) * 2 ^ 64) :=
      mul_self_le_mul_self hA0 l_t
    have c2 : (4 * B * B * (B + x) + 1) * (2 ^ 64 * 2 ^ 64)
        <= ((B + 1) * ((2 * B + t) * (2 * B + t))) * (2 ^ 64 * 2 ^ 64) := by
      nlinarith [l4, mul_le_mul_of_nonneg_left c1 (by linarith : (0:ℤ) <= B + 1)]
    exact le_of_mul_le_mul_right c2 (by positivity)
  clear l4 l_t hA0 u2 u3 hsS hsn ht hr1 hr2
  have hrhs := rt_rhs_small B x (2 * B + t) hB1 hB2 hx2 (by linarith) hN (by linarith)
  have l1 := rt_l1 B x t n3 hx1 hB1 hN l3 hrhs
  clear l3 hrhs hN3B
  -- sell-side floors
  have gSn3 : 2 ^ 64 * n3 <= (2 ^ 64 - n1) * (2 ^ 64 - n1) := by linarith [hn3, hr4.1]
  have hn1up : (2 * B + t) * n1 <= t * 2 ^ 64 := by linarith [hn1, hr3.1]
  have hn1S : n1 <= 2 ^ 64 := by
    have h1 : (2 * B + t) * n1 <= (2 * B + t) * 2 ^ 64 := by nlinarith [hn1up]
    exact le_of_mul_le_mul_left h1 hN
  have gNn2up : (2 * B + t) * (2 ^ 64 - n1) <= 2 * B * 2 ^ 64 + (2 * B + t) - 1 := by
    nlinarith [hn1, hr3.2]
  have gNn2nn : (0:ℤ) <= (2 * B + t) * (2 ^ 64 - n1) :=
    mul_nonneg hN.le (by linarith)
  have g1 : 2 ^ 64 * n3 * ((2 * B + t) * (2 * B + t))
      <= ((2 * B + t) * (2 ^ 64 - n1)) * ((2 * B + t) * (2 ^ 64 - n1)) := by
    nlinarith [mul_le_mul_of_nonneg_right gSn3
      (by positivity : (0:ℤ) <= (2 * B + t) * (2 * B + t))]
  have g2 : ((2 * B + t) * (2 ^ 64 - n1)) * ((2 * B + t) * (2 ^ 64 - n1))
      <= (2 * B * 2 ^ 64 + (2 * B + t) - 1) * (2 * B * 2 ^ 64 + (2 * B + t) - 1) :=
    mul_self_le_mul_self gNn2nn gNn2up
  clear gSn3 hn1up hn1S gNn2up gNn2nn hn1 hn3 hr3 hr4
  have g3 : (x - 1) * 2 ^ 64 * (2 ^ 64 * ((2 * B + t) * (2 * B + t)))
      <= (2 ^ 64 - n3) * (B + x) * (2 ^ 64 * ((2 * B + t) * (2 * B + t))) := by
    nlinarith [l1, mul_le_mul_of_nonneg_left (le_trans g1 g2) hM.le]
  have G : (x - 1) * 2 ^ 64 <= (2 ^ 64 - n3) * (B + x) :=
    le_of_mul_le_mul_right g3 (by positivity)
  nlinarith [G, hy, hr5.2, hS]

set_option maxHeartbeats 1000000 in
theorem roundtrip_bounds (B x : Nat) (hB1 : 16 <= B) (hB2 : B <= 2 ^ 19)
    (hx1 : 1 <= x) (hx2 : x <= B) :
    sellY (2 * B + buyT (2 * B) B x) (B + x) (buyT (2 * B) B x) <= x
  ∧ x <= sellY (2 * B + buyT (2 * B) B x) (B + x) (buyT (2 * B) B x) + 1 := by
  have hBpos : 0 < B := by omega
  simp only [buyT, sellY, SCALE, pow_two]
  set m1 := x * 2 ^ 64 / B with hm1_def
  set r1 := x * 2 ^ 64 % B with hr1_def
  set s := Nat.sqrt ((2 ^ 64 + m1) * 2 ^ 64) with hs_def
  set t := (s - 2 ^ 64) * (2 * B) / 2 ^ 64 with ht_def
  set r2 := (s - 2 ^ 64) * (2 * B) % 2 ^ 64 with hr2_def
  set n1 := t * 2 ^ 64 / (2 * B + t) with hn1_def
  set r3 := t * 2 ^ 64 % (2 * B + t) with hr3_def
  set n3 := (2 ^ 64 - n1) * (2 ^ 64 - n1) / 2 ^ 64 with hn3_def
  set r4 := (2 ^ 64 - n1) * (2 ^ 64 - n1) % 2 ^ 64 with hr4_def
  set y := (2 ^ 64 - n3) * (B + x) / 2 ^ 64 with hy_def
  set r5 := (2 ^ 64 - n3) * (B + x) % 2 ^ 64 with hr5_def
  have hNpos : 0 < 2 * B + t := by omega
  have hd1 : B * m1 + r1 = x * 2 ^ 64 := Nat.div_add_mod _ _
  have hr1 : r1 < B := Nat.mod_lt _ hBpos
  have hs : s * s <= (2 ^ 64 + m1) * 2 ^ 64 := Nat.sqrt_le _
  have hs2 : (2 ^ 64 + m1) * 2 ^ 64 < (s + 1) * (s + 1) := by
    simpa using Nat.lt_succ_sqrt ((2 ^ 64 + m1) * 2 ^ 64)
  have hsS : 2 ^ 64 <= s :=
    Nat.le_sqrt.mpr (Nat.mul_le_mul_right _ (Nat.le_add_right _ _))
  have hd2 : 2 ^ 64 * t + r2 = (s - 2 ^ 64) * (2 * B) := Nat.div_add_mod _ _
  have hr2 : r2 < 2 ^ 64 := Nat.mod_lt _ (by norm_num)
  have hd3 : (2 * B + t) * n1 + r3 = t * 2 ^ 64 := Nat.div_add_mod _ _
  have hr3 : r3 < 2 * B + t := Nat.mod_lt _ hNpos
  have hn1le : n1 <= 2 ^ 64 :=
    Nat.div_le_of_le_mul (by
      calc t * 2 ^ 64 <= (2 * B + t) * 2 ^ 64 :=
        Nat.mul_le_mul_right _ (by omega)
      _ = (2 * B + t) * 2 ^ 64 := rfl)
  have hd4 : 2 ^ 64 * n3 + r4 = (2 ^ 64 - n1) * (2 ^ 64 - n1) := Nat.div_add_mod _ _
  have hr4 : r4 < 2 ^ 64 := Nat.mod_lt _ (by norm_num)
  have hn3le : n3 <= 2 ^ 64 :=
    Nat.div_le_of_le_mul (by
      calc (2 ^ 64 - n1) * (2 ^ 64 - n1) <= 2 ^ 64 * (2 ^ 64 - n1) :=
        Nat.mul_le_mul_right _ (Nat.sub_le _ _)
      _ <= 2 ^ 64 * 2 ^ 64 := Nat.mul_le_mul_left _ (Nat.sub_le _ _))
  have hd5 : 2 ^ 64 * y + r5 = (2 ^ 64 - n3) * (B + x) := Nat.div_add_mod _ _
  have hr5 : r5 < 2 ^ 64 := Nat.mod_lt _ (by norm_num)
  -- integer versions
  have zd1 : (x:ℤ) * 2 ^ 64 = (B:ℤ) * (m1:ℤ) + (r1:ℤ) := by exact_mod_cast hd1.symm
  have zs : (s:ℤ) * (s:ℤ) <= (2 ^ 64 + (m1:ℤ)) * 2 ^ 64 := by exact_mod_cast hs
  have zs2 : (2 ^ 64 + (m1:ℤ)) * 2 ^ 64 < ((s:ℤ) + 1) * ((s:ℤ) + 1) := by
    exact_mod_cast hs2
  have zsS : (2:ℤ) ^ 64 <= (s:ℤ) := by exact_mod_cast hsS
  have zd2 : ((s:ℤ) - 2 ^ 64) * (2 * (B:ℤ)) = 2 ^ 64 * (t:ℤ) + (r2:ℤ) := by
    have := hd2.symm
    zify [hsS] at this
    linarith [this]
  have zd3 : (t:ℤ) * 2 ^ 64 = (2 * (B:ℤ) + (t:ℤ)) * (n1:ℤ) + (r3:ℤ) := by
    exact_mod_cast hd3.symm
  have zd4 : (2 ^ 64 - (n1:ℤ)) * (2 ^ 64 - (n1:ℤ)) = 2 ^ 64 * (n3:ℤ) + (r4:ℤ) := by
    have := hd4.symm
    zify [hn1le] at this
    linarith [this]
  have zd5 : (2 ^ 64 - (n3:ℤ)) * ((B:ℤ) + (x:ℤ)) = 2 ^ 64 * (y:ℤ) + (r5:ℤ) := by
    have := hd5.symm
    zify [hn3le] at this
    linarith [this]
  have znn : (0:ℤ) <= (t:ℤ) ∧ (0:ℤ) <= (n1:ℤ) ∧ (0:ℤ) <= (n3:ℤ)
      ∧ (0:ℤ) <= (y:ℤ) ∧ (0:ℤ) <= (s:ℤ) ∧ (0:ℤ) <= (m1:ℤ) :=
    ⟨Int.natCast_nonneg _, Int.natCast_nonneg _, Int.natCast_nonneg _,
     Int.natCast_nonneg _, Int.natCast_nonneg _, Int.natCast_nonneg _⟩
  constructor
  · -- upper half
    have hup := roundtrip_upper (B:ℤ) (x:ℤ) (m1:ℤ) (s:ℤ) (t:ℤ) (n1:ℤ) (n3:ℤ)
      (y:ℤ) (r3:ℤ) (r4:ℤ) (r5:ℤ)
      (by exact_mod_cast hB1) (by exact_mod_cast hx1) (by exact_mod_cast hx2)
      (by
        have : B + x <= 2 ^ 20 := by omega
        exact_mod_cast this)
      znn
      (by linarith [zd1, (by exact_mod_cast (Nat.zero_le r1) : (0:ℤ) <= (r1:ℤ))])
      zs
      (by linarith [zd2, (by exact_mod_cast (Nat.zero_le r2) : (0:ℤ) <= (r2:ℤ))])
      zd3 (by exact_mod_cast (Nat.zero_le r3))
      zd4 ⟨by exact_mod_cast (Nat.zero_le r4), by exact_mod_cast hr4⟩
      zd5 (by exact_mod_cast (Nat.zero_le r5))
    exact_mod_cast hup
  · -- lower half
    rcases eq_or_lt_of_le hx1 with hx1e | hx1g
    · omega
    · have hlow := roundtrip_lower (B:ℤ) (x:ℤ) (m1:ℤ) (s:ℤ) (t:ℤ) (n1:ℤ) (n3:ℤ)
        (y:ℤ) (r1:ℤ) (r2:ℤ) (r3:ℤ) (r4:ℤ) (r5:ℤ)
        (by exact_mod_cast hB1) (by exact_mod_cast hB2)
        (by exact_mod_cast hx1g) (by exact_mod_cast hx2)
        znn
        zd1 ⟨by exact_mod_cast (Nat.zero_le r1), by exact_mod_cast hr1⟩
        zs zs2 zsS
        (by linarith [zd2]) ⟨by exact_mod_cast (Nat.zero_le r2), by exact_mod_cast hr2⟩
        zd3 ⟨by exact_mod_cast (Nat.zero_le r3), by exact_mod_cast hr3⟩
        zd4 ⟨by exact_mod_cast (Nat.zero_le r4), by exact_mod_cast hr4⟩
        zd5 ⟨by exact_mod_cast (Nat.zero_le r5), by exact_mod_cast hr5⟩
      exact_mod_cast hlow

/-- Below the saturation thresholds the minted amount has no active
clamps. -/
theorem mintedNat_eq_buyT (vsup vbal x : Nat) (_hvb : 0 < vbal)
    (hx : x <= 3 * vbal) (hvs : vsup <= 2 ^ 62) :
    mintedNat vsup vbal x = buyT vsup vbal x := by
  simp only [mintedNat, buyT, SCALE]
  have h1 : x * 2 ^ 64 / vbal <= 3 * 2 ^ 64 :=
    Nat.div_le_of_le_mul (by
      calc x * 2 ^ 64 <= 3 * vbal * 2 ^ 64 := Nat.mul_le_mul_right _ hx
      _ = vbal * (3 * 2 ^ 64) := by ring)
  rw [show min (2 ^ 64 + x * 2 ^ 64 / vbal) (2 ^ 127 - 1)
    = 2 ^ 64 + x * 2 ^ 64 / vbal from min_eq_left (by omega)]
  have h3 : Nat.sqrt ((2 ^ 64 + x * 2 ^ 64 / vbal) * 2 ^ 64) <= 2 ^ 65 := by
    calc Nat.sqrt ((2 ^ 64 + x * 2 ^ 64 / vbal) * 2 ^ 64)
        <= Nat.sqrt (2 ^ 65 * 2 ^ 65) := Nat.sqrt_le_sqrt (by omega)
    _ = 2 ^ 65 := Nat.sqrt_eq _
  rw [min_eq_left (by
    calc (Nat.sqrt ((2 ^ 64 + x * 2 ^ 64 / vbal) * 2 ^ 64) - 2 ^ 64) * vsup
        <= 2 ^ 64 * 2 ^ 62 := Nat.mul_le_mul (by omega) hvs
    _ <= 2 ^ 127 - 1 := by norm_num)]

/-- Below the thresholds a buy mints at most the virtual supply. -/
theorem buyT_le_vsup (vsup vbal x : Nat) (_hvb : 0 < vbal)
    (hx : x <= 3 * vbal) :
    buyT vsup vbal x <= vsup := by
  simp only [buyT, SCALE]
  have h1 : x * 2 ^ 64 / vbal <= 3 * 2 ^ 64 :=
    Nat.div_le_of_le_mul (by
      calc x * 2 ^ 64 <= 3 * vbal * 2 ^ 64 := Nat.mul_le_mul_right _ hx
      _ = vbal * (3 * 2 ^ 64) := by ring)
  have h3 : Nat.sqrt ((2 ^ 64 + x * 2 ^ 64 / vbal) * 2 ^ 64) <= 2 ^ 65 := by
    calc Nat.sqrt ((2 ^ 64 + x * 2 ^ 64 / vbal) * 2 ^ 64)
        <= Nat.sqrt (2 ^ 65 * 2 ^ 65) := Nat.sqrt_le_sqrt (by omega)
    _ = 2 ^ 65 := Nat.sqrt_eq _
  apply Nat.div_le_of_le_mul
  exact Nat.mul_le_mul_right _ (by omega)

/-- C5: on a freshly initialized curve with reasonable parameters
(`16 <= B <= 2^19` and a deposit `1 <= x <= B`, making `x` comparable to
the reserve), buying `x` vstokens (minting `t` tokens) and immediately
selling the `t` tokens returns `y` vstokens with `|y - x| <= 1`: the
round trip drifts by at most one unit of the integer representation. -/
theorem roundtrip_near_identity (B x : Nat) (hB1 : 16 <= B)
    (hB2 : B <= 2 ^ 19) (hx1 : 1 <= x) (hx2 : x <= B) :
    ∃ t y s1 s2 s3,
      base_init initialState 0 B = Outcome.ok s1 [PEvent.bancorInit (2 * B) B 0]
    ∧ vstoken_buy_token s1 0 x = Outcome.ok s2 [PEvent.vsTokenToToken x t 0]
    ∧ token_buy_vstoken s2 0 t = Outcome.ok s3 [PEvent.tokenToVsToken t y 0]
    ∧ y <= x ∧ x <= y + 1 := by
  have hminted := mintedNat_eq_buyT (2 * B) B x (by omega) (by omega) (by omega)
  have htle : buyT (2 * B) B x <= 2 * B := buyT_le_vsup (2 * B) B x (by omega) (by omega)
  obtain ⟨hup, hlow⟩ := roundtrip_bounds B x hB1 hB2 hx1 hx2
  have h1 : base_init initialState 0 B = Outcome.ok
      { baseSupplyOfToken := some (2 * B), baseBalanceOfVSToken := some B,
        realSupplyOfToken := some 0, realBalanceOfVSToken := some 0,
        tokenSheet := fun _ => none } [PEvent.bancorInit (2 * B) B 0] := by
    rw [base_init_fresh initialState 0 B rfl]
    rw [show satMulU B 2 = 2 * B from by rw [satMulU, U128MAX]; omega]
    rfl
  have h2 := buy_eval
    { baseSupplyOfToken := some (2 * B), baseBalanceOfVSToken := some B,
      realSupplyOfToken := some 0, realBalanceOfVSToken := some 0,
      tokenSheet := fun _ => none } 0 x (2 * B) B 0 0 rfl rfl rfl rfl
    (by omega) (by omega) (by omega) (by omega)
  simp only [Nat.add_zero, Nat.zero_add, hminted] at h2
  have h3 := sell_eval
    { baseSupplyOfToken := some (2 * B), baseBalanceOfVSToken := some B,
      realSupplyOfToken := some (buyT (2 * B) B x),
      realBalanceOfVSToken := some x,
      tokenSheet := fun a => if a = 0 then some (buyT (2 * B) B x)
        else (fun _ => (none : Option Nat)) a } 0
    (buyT (2 * B) B x) (2 * B) B (buyT (2 * B) B x) x (buyT (2 * B) B x)
    rfl rfl rfl rfl (by simp) (by omega) (by omega) (by omega) (by omega)
  exact ⟨_, _, _, _, _, h1, h2, h3, hup, hlow⟩

/-- Witness for C5 (`roundtrip_near_identity`) at the spec's concrete
parameters `B = 1000`, `x = 1000`. -/
theorem roundtrip_near_identity_witness :
    ∃ t y s1 s2 s3,
      base_init initialState 0 1000
        = Outcome.ok s1 [PEvent.bancorInit (2 * 1000) 1000 0]
    ∧ vstoken_buy_token s1 0 1000 = Outcome.ok s2 [PEvent.vsTokenToToken 1000 t 0]
    ∧ token_buy_vstoken s2 0 t = Outcome.ok s3 [PEvent.tokenToVsToken t y 0]
    ∧ y <= 1000 ∧ 1000 <= y + 1 :=
  roundtrip_near_identity 1000 1000 (by norm_num) (by norm_num)
    (by norm_num) (by norm_num)
